import Mathlib

/-!
Verification of the claude-text-me MCP server core: the reply-rendezvous
logic of `ask_user`, the inbound-message callback `handleUserMessage`, the
bounded message queue drained by `get_messages`, and the Feishu inbound
adapter's event filter.  Every definition below is a shallow embedding of
the corresponding TypeScript in `src/index.ts` (the variant with the
message queue, embedded in `src/providers/types.ts`) and
`src/providers/feishu.ts`.  Time is modelled in integer milliseconds;
JavaScript promises are modelled as an outcome slot per wait id, with
idempotent resolve/reject (settling an already-settled promise is a no-op,
exactly as in JS).
-/

/-- `interface QueuedMessage { text: string; timestamp: number }`. -/
structure QueuedMessage where
  text : String
  timestamp : Int
deriving Repr, DecidableEq

/-- The settlement state of the promise created inside `ask_user`:
`unresolved` before anyone calls the stored `resolve`/`reject`,
`fulfilled` once `resolve(message)` has run, `rejected` once `reject(err)`
has run.  JS promises settle at most once. -/
inductive WaitOutcome where
  | unresolved : WaitOutcome
  | fulfilled : String → WaitOutcome
  | rejected : String → WaitOutcome
deriving Repr, DecidableEq

/-- The MCP tool result: the `content[0].text` string, with `isError`
distinguished as a separate constructor. -/
inductive ToolResult where
  | ok : String → ToolResult
  | error : String → ToolResult
deriving Repr, DecidableEq

/-- Result of running `ask_user` up to its suspension point: either the
outbound `sendRichMessage` threw (so the catch block returns an error
result at once and nothing was registered), or the promise executor ran
and the caller is now suspended on wait `w`. -/
inductive AskStart where
  | sendFailed : AskStart
  | registered : Nat → AskStart
deriving Repr, DecidableEq

/-- The module-level mutable state of `src/index.ts`:
`pendingReplyResolve` holds (the id of the wait owning) the stored resolver
or `none` for `null`; `replyTimeout` holds the stored timer handle or
`none` for `null`; `armedTimers` is the set of timers that were set with
`setTimeout` and have neither fired nor been cleared; `messageQueue` is the
queue array; `waits` records each wait's promise outcome (most recent
binding first; `outcomeOf` reads the first match, so updating prepends). -/
structure ServerState where
  pendingReplyResolve : Option Nat
  replyTimeout : Option Nat
  armedTimers : List Nat
  messageQueue : List QueuedMessage
  waits : List (Nat × WaitOutcome)
deriving Repr, DecidableEq

/-- The state at process start: both mutable slots `null`, queue empty. -/
def idleState : ServerState :=
  { pendingReplyResolve := none, replyTimeout := none, armedTimers := [],
    messageQueue := [], waits := [] }

/-- `const MAX_QUEUE_SIZE = 50`. -/
def MAX_QUEUE_SIZE : Nat := 50

/-- `TTL`: one hour in milliseconds (`60 * 60 * 1000`). -/
def TTL_MS : Int := 60 * 60 * 1000

/-- Promise outcome of wait `w` (first binding wins; a wait that was never
created reads as `unresolved`). -/
def outcomeOf : List (Nat × WaitOutcome) → Nat → WaitOutcome
  | [], _ => WaitOutcome.unresolved
  | (k, o) :: rest, w => if k = w then o else outcomeOf rest w

/-- `resolve(message)` on wait `w`: settles the promise to
`fulfilled message` if it is still unresolved, otherwise a no-op
(JS promise resolution is idempotent). -/
def resolveWait (ws : List (Nat × WaitOutcome)) (w : Nat) (message : String) :
    List (Nat × WaitOutcome) :=
  if outcomeOf ws w = WaitOutcome.unresolved then
    (w, WaitOutcome.fulfilled message) :: ws
  else ws

/-- `reject(new Error(err))` on wait `w`: settles the promise to
`rejected err` if it is still unresolved, otherwise a no-op. -/
def rejectWait (ws : List (Nat × WaitOutcome)) (w : Nat) (err : String) :
    List (Nat × WaitOutcome) :=
  if outcomeOf ws w = WaitOutcome.unresolved then
    (w, WaitOutcome.rejected err) :: ws
  else ws

/-- The queue mutation in the enqueue branch of `handleUserMessage`:
`messageQueue.push(entry)` followed by `if (messageQueue.length >
MAX_QUEUE_SIZE) messageQueue.shift()` — append, then drop the oldest on
overflow. -/
def pushBounded (q : List QueuedMessage) (m : QueuedMessage) :
    List QueuedMessage :=
  if MAX_QUEUE_SIZE < (q ++ [m]).length then (q ++ [m]).drop 1 else q ++ [m]

/-- `handleUserMessage(message)` (the inbound callback), with `now` the
value `Date.now()` would return:
if `pendingReplyResolve` is set, call it with `message` (the queue is not
touched); otherwise push `{ text: message, timestamp: now }` and, if the
length now exceeds `MAX_QUEUE_SIZE`, `shift()` the oldest entry
(`pushBounded`). -/
def handleUserMessage (message : String) (now : Int) (s : ServerState) :
    ServerState :=
  match s.pendingReplyResolve with
  | some w => { s with waits := resolveWait s.waits w message }
  | none =>
    { s with messageQueue :=
        pushBounded s.messageQueue { text := message, timestamp := now } }

/-- The `get_messages` tool: if the queue is empty it reports "no pending
messages" (returned here as the empty list) and changes nothing; otherwise
it copies the queue, sets its length to 0, and returns the copy.  The
source never consults the clock here and never calls
`cleanupOldMessages`, so this function has no time parameter. -/
def getMessages (s : ServerState) : ServerState × List QueuedMessage :=
  if s.messageQueue.isEmpty then (s, [])
  else ({ s with messageQueue := [] }, s.messageQueue)

/-- `cleanupOldMessages()` from the source (defined there but never
invoked): removes every entry with `timestamp < now - TTL_MS`, keeping the
rest in order (the source's backwards splice loop preserves order). -/
def cleanupOldMessages (now : Int) (q : List QueuedMessage) :
    List QueuedMessage :=
  q.filter (fun m => decide (¬ m.timestamp < now - TTL_MS))

/-- The promise executor inside `ask_user`, which runs synchronously once
the outbound send has succeeded: creates the (unresolved) promise for wait
`w`, stores its resolver in `pendingReplyResolve`, and arms the timeout
timer, storing its handle in `replyTimeout`.  Note that it overwrites both
slots unconditionally — there is no occupied-slot check. -/
def registerWait (w : Nat) (s : ServerState) : ServerState :=
  { s with waits := (w, WaitOutcome.unresolved) :: s.waits,
           pendingReplyResolve := some w,
           replyTimeout := some w,
           armedTimers := w :: s.armedTimers }

/-- The `setTimeout` callback for wait `w`, which runs only if that timer
is still armed: it sets `pendingReplyResolve = null` (unconditionally) and
rejects the promise with "Timeout waiting for user reply".  It does not
touch `replyTimeout` or the queue. -/
def timerFire (w : Nat) (s : ServerState) : ServerState :=
  if w ∈ s.armedTimers then
    { s with armedTimers := s.armedTimers.erase w,
             pendingReplyResolve := none,
             waits := rejectWait s.waits w "Timeout waiting for user reply" }
  else s

/-- `ask_user` from its start to its suspension point: `await
provider.sendRichMessage(...)` either throws (`sendOk = false`), in which
case the catch block produces an error result and no state was touched, or
succeeds, in which case the promise executor runs and the caller suspends
on wait `w`. -/
def askUserStart (sendOk : Bool) (w : Nat) (s : ServerState) :
    ServerState × AskStart :=
  if sendOk then (registerWait w s, AskStart.registered w)
  else (s, AskStart.sendFailed)

/-- The continuation of `ask_user` after the awaited promise of wait `w`
has settled.  On fulfillment: `if (replyTimeout) { clearTimeout(...);
replyTimeout = null; } pendingReplyResolve = null;` then return
"User replied: ...".  On rejection the catch block returns
"Failed to get user reply: ..." and performs no cleanup (the timer
callback already nulled `pendingReplyResolve` on the timeout path).
The `unresolved` branch is unreachable: `await` resumes only after the
promise settles. -/
def askUserResume (w : Nat) (s : ServerState) : ServerState × ToolResult :=
  match outcomeOf s.waits w with
  | WaitOutcome.fulfilled r =>
    let s1 :=
      match s.replyTimeout with
      | some t => { s with replyTimeout := none,
                           armedTimers := s.armedTimers.erase t }
      | none => s
    ({ s1 with pendingReplyResolve := none },
     ToolResult.ok ("User replied: " ++ r))
  | WaitOutcome.rejected e =>
    (s, ToolResult.error ("Failed to get user reply: " ++ e))
  | WaitOutcome.unresolved => (s, ToolResult.error "unreachable")

/-- `const timeout = Math.min(timeout_seconds || 180, 300) * 1000`, with
the zod default making an unspecified `timeout_seconds` 180 and the `||`
making a passed 0 fall back to 180 as well.  Note there is no lower
bound. -/
def effectiveTimeoutMs (timeoutSeconds : Option Int) : Int :=
  (min (match timeoutSeconds with
        | none => 180
        | some v => if v = 0 then 180 else v) 300) * 1000

/-- The timeout the spec describes, stated from the spec's words for
comparison with `effectiveTimeoutMs`: "`timeoutSeconds` clamped to
`[1, 300]`, default 180 if unspecified". -/
def clampSpecTimeoutMs (timeoutSeconds : Option Int) : Int :=
  (max 1 (min (timeoutSeconds.getD 180) 300)) * 1000

/-- Outcome of `JSON.parse(message.content)` for a text event:
`malformed` if the parse throws, `parsed t` if it yields an object whose
`text` field is the string in `t` (or is absent / not a string, `t =
none`, in which case the callback would receive `undefined`). -/
inductive ContentParse where
  | malformed : ContentParse
  | parsed : Option String → ContentParse
deriving Repr, DecidableEq

/-- An `im.message.receive_v1` event as the dispatcher callback in
`startListening` sees it: `event.sender.sender_type` (the
`FeishuEventMessage` type declares it; "user" for a human, "app" for a
bot), `message?.message_type` (`none` when `data.message` is missing),
and the parse outcome of `message.content`. -/
structure InboundEvent where
  senderType : String
  messageType : Option String
  content : ContentParse
deriving Repr, DecidableEq

/-- The body of the `im.message.receive_v1` handler in `startListening`:
`if (message?.message_type === "text" && this.messageCallback)` then parse
the content and invoke the callback with `content.text`; a parse error is
caught and swallowed.  Returns `some v` when the callback is invoked with
value `v` (`v = none` modelling `undefined`), `none` when the event is
discarded. -/
def adapterDeliver (callbackSet : Bool) (e : InboundEvent) :
    Option (Option String) :=
  if e.messageType = some "text" then
    if callbackSet then
      match e.content with
      | ContentParse.malformed => none
      | ContentParse.parsed t => some t
    else none
  else none

/-- A self-authored (bot) text event with well-formed content. -/
def botTextEvent : InboundEvent :=
  { senderType := "app", messageType := some "text",
    content := ContentParse.parsed (some "hi") }

/-- A `(text, timestamp)` pair as the queue entry it becomes. -/
def toQueued (m : String × Int) : QueuedMessage :=
  { text := m.1, timestamp := m.2 }

/-- Running a sequence of inbound messages (text with arrival time)
through `handleUserMessage` starting from the idle state. -/
def pushTrace (msgs : List (String × Int)) : ServerState :=
  msgs.foldl (fun s m => handleUserMessage m.1 m.2 s) idleState

/-! ## Helper lemmas -/

/-- `pushBounded` keeps the queue within the capacity bound. -/
theorem pushBounded_length (q : List QueuedMessage) (m : QueuedMessage)
    (h : q.length ≤ MAX_QUEUE_SIZE) :
    (pushBounded q m).length ≤ MAX_QUEUE_SIZE := by
  unfold pushBounded
  split
  · simpa using h
  · next hc =>
      simp only [List.length_append, List.length_singleton] at hc ⊢
      omega

/-- Below capacity, `pushBounded` is a plain append. -/
theorem pushBounded_eq_append (q : List QueuedMessage) (m : QueuedMessage)
    (h : q.length < MAX_QUEUE_SIZE) : pushBounded q m = q ++ [m] := by
  unfold pushBounded
  have hc : ¬ MAX_QUEUE_SIZE < (q ++ [m]).length := by
    simp only [List.length_append, List.length_singleton]
    omega
  rw [if_neg hc]

/-- Folding `pushBounded` over any input list keeps exactly the final
(at most `MAX_QUEUE_SIZE`-long) segment of everything ever enqueued, in
order. -/
theorem foldl_pushBounded_drop (l : List QueuedMessage) :
    ∀ q : List QueuedMessage, q.length ≤ MAX_QUEUE_SIZE →
      l.foldl pushBounded q
        = (q ++ l).drop (q.length + l.length - MAX_QUEUE_SIZE) := by
  induction l with
  | nil =>
    intro q h
    simp [Nat.sub_eq_zero_of_le h]
  | cons m t ih =>
    intro q h
    rw [List.foldl_cons]
    by_cases hc : q.length < MAX_QUEUE_SIZE
    · rw [pushBounded_eq_append q m hc, ih (q ++ [m]) (by simp; omega)]
      rw [List.append_assoc, List.singleton_append]
      congr 1
      simp
      omega
    · have hq : q.length = MAX_QUEUE_SIZE := le_antisymm h (not_lt.mp hc)
      have hp : pushBounded q m = (q ++ [m]).drop 1 := by
        unfold pushBounded
        have hgt : MAX_QUEUE_SIZE < (q ++ [m]).length := by
          simp only [List.length_append, List.length_singleton]
          omega
        rw [if_pos hgt]
      rw [hp, ih ((q ++ [m]).drop 1) (by simp [hq])]
      rw [← List.drop_append_of_le_length (by simp)]
      rw [List.drop_drop]
      rw [List.append_assoc, List.singleton_append]
      congr 1
      simp [hq]
      omega

/-- With no wait pending, a run of inbound messages is exactly a fold of
`pushBounded` over the queue, and the slot stays empty. -/
theorem foldl_handleUserMessage_queue (msgs : List (String × Int)) :
    ∀ s : ServerState, s.pendingReplyResolve = none →
      (msgs.foldl (fun s m => handleUserMessage m.1 m.2 s) s).messageQueue
        = (msgs.map toQueued).foldl pushBounded s.messageQueue ∧
      (msgs.foldl (fun s m => handleUserMessage m.1 m.2 s) s).pendingReplyResolve
        = none := by
  induction msgs with
  | nil => intro s h; simp [h]
  | cons m t ih =>
    intro s h
    rw [List.foldl_cons, List.map_cons, List.foldl_cons]
    have hm : handleUserMessage m.1 m.2 s
        = { s with messageQueue := pushBounded s.messageQueue (toQueued m) } := by
      simp [handleUserMessage, h, toQueued]
    rw [hm]
    exact ih _ (by simp [h])

/-- The drain always returns the queue's current contents in order. -/
theorem getMessages_snd (s : ServerState) :
    (getMessages s).2 = s.messageQueue := by
  unfold getMessages
  by_cases h : s.messageQueue.isEmpty
  · simp [h]
    exact List.isEmpty_iff.mp h
  · simp [h]

/-- The drain leaves the queue empty. -/
theorem getMessages_fst_queue (s : ServerState) :
    ((getMessages s).1).messageQueue = [] := by
  unfold getMessages
  by_cases h : s.messageQueue.isEmpty
  · simp [h]
    exact List.isEmpty_iff.mp h
  · simp [h]

/-! ## Claim theorems -/

/-- Claim C1 (code behavior at the failing input): a second `ask_user`
issued while the first is WAITING does not fail — it registers and
silently overwrites `pendingReplyResolve`, so the next inbound reply
fulfills the second wait while the first stays unresolved (orphaned).
There is no `ConcurrentWaitConflict` path anywhere in the code. -/
theorem secondAskUserOverwritesFirstWait :
    (askUserStart true 2 (registerWait 1 idleState)).2 = AskStart.registered 2 ∧
    (askUserStart true 2 (registerWait 1 idleState)).1.pendingReplyResolve
      = some 2 ∧
    outcomeOf (handleUserMessage "reply" 5
        (askUserStart true 2 (registerWait 1 idleState)).1).waits 2
      = WaitOutcome.fulfilled "reply" ∧
    outcomeOf (handleUserMessage "reply" 5
        (askUserStart true 2 (registerWait 1 idleState)).1).waits 1
      = WaitOutcome.unresolved := by
  decide

/-- Claim C2 (code behavior at the failing input): an entry pushed at
`T = 0` is still returned by `get_messages` 61 minutes later
(`now = 3660000` ms), because `get_messages` never sweeps — the source's
`cleanupOldMessages` is defined but never invoked; had it run at that
moment it would have removed the entry, as the second conjunct shows. -/
theorem drainReturnsExpiredEntry :
    (getMessages (handleUserMessage "hello" 0 idleState)).2
      = [{ text := "hello", timestamp := 0 }] ∧
    cleanupOldMessages 3660000 [{ text := "hello", timestamp := 0 }] = [] ∧
    cleanupOldMessages 3540000 [{ text := "hello", timestamp := 0 }]
      = [{ text := "hello", timestamp := 0 }] := by
  decide

/-- Claim C3 (counterexample): with wait 0 WAITING, a first `route("a")`
wins; a second `route("b")` arriving while `pendingReplyResolve` is still
set (the caller has not yet resumed and cleared the slot) is NOT appended
to the queue — the queue stays empty and the message is dropped, contrary
to the claim that it falls through to enqueueing. -/
theorem routeInWindowNotQueued :
    outcomeOf (handleUserMessage "b" 11
        (handleUserMessage "a" 10 (registerWait 0 idleState))).waits 0
      = WaitOutcome.fulfilled "a" ∧
    (handleUserMessage "b" 11
        (handleUserMessage "a" 10 (registerWait 0 idleState))).messageQueue
      = [] := by
  decide

/-- Claim C3 (amended): at most one `route` call is delivered as a wait's
result — promise resolution is idempotent, so a `route` call arriving
while the resolver slot is still set but the wait is already fulfilled is
a complete no-op: it does not double-deliver, and (contrary to the
original claim) it is discarded rather than appended to the queue. -/
theorem routeAfterWinnerIsDiscarded (s : ServerState) (w : Nat)
    (r msg : String) (now : Int)
    (hp : s.pendingReplyResolve = some w)
    (ho : outcomeOf s.waits w = WaitOutcome.fulfilled r) :
    (handleUserMessage msg now s).messageQueue = s.messageQueue ∧
    outcomeOf (handleUserMessage msg now s).waits w
      = WaitOutcome.fulfilled r ∧
    (handleUserMessage msg now s).waits = s.waits := by
  have hmsg : handleUserMessage msg now s = s := by
    simp [handleUserMessage, hp, resolveWait, ho]
    rw [← hp]
  rw [hmsg]
  exact ⟨rfl, ho, rfl⟩

/-- Claim C3 witness: the amended theorem at the concrete
register-route-route trace. -/
theorem routeAfterWinnerIsDiscardedWitness :
    (handleUserMessage "b" 11
        (handleUserMessage "a" 10 (registerWait 0 idleState))).messageQueue
      = (handleUserMessage "a" 10 (registerWait 0 idleState)).messageQueue ∧
    outcomeOf (handleUserMessage "b" 11
        (handleUserMessage "a" 10 (registerWait 0 idleState))).waits 0
      = WaitOutcome.fulfilled "a" ∧
    (handleUserMessage "b" 11
        (handleUserMessage "a" 10 (registerWait 0 idleState))).waits
      = (handleUserMessage "a" 10 (registerWait 0 idleState)).waits :=
  routeAfterWinnerIsDiscarded
    (handleUserMessage "a" 10 (registerWait 0 idleState)) 0 "a" "b" 11
    (by decide) (by decide)

/-- Claim C4: after any sequence of pushes (inbound messages with no wait
pending) from the idle state, the queue holds at most 50 entries, those
entries are exactly the most recently pushed ones in original relative
order (the final segment of the push sequence), and a drain returns
exactly them. -/
theorem queueBoundAndRecency (msgs : List (String × Int)) :
    (pushTrace msgs).messageQueue
      = (msgs.map toQueued).drop (msgs.length - MAX_QUEUE_SIZE) ∧
    (pushTrace msgs).messageQueue.length ≤ MAX_QUEUE_SIZE ∧
    (getMessages (pushTrace msgs)).2
      = (msgs.map toQueued).drop (msgs.length - MAX_QUEUE_SIZE) := by
  have h1 := (foldl_handleUserMessage_queue msgs idleState rfl).1
  have h2 := foldl_pushBounded_drop (msgs.map toQueued) []
    (by simp [MAX_QUEUE_SIZE])
  simp only [List.nil_append, List.length_nil, Nat.zero_add] at h2
  have hq : (pushTrace msgs).messageQueue
      = (msgs.map toQueued).drop (msgs.length - MAX_QUEUE_SIZE) := by
    unfold pushTrace
    rw [h1]
    show (msgs.map toQueued).foldl pushBounded []
        = (msgs.map toQueued).drop (msgs.length - MAX_QUEUE_SIZE)
    rw [h2, List.length_map]
  refine ⟨hq, ?_, ?_⟩
  · rw [hq]
    simp only [List.length_drop, List.length_map]
    omega
  · rw [getMessages_snd, hq]

/-- Claim C5: a drain returns all queued entries in arrival order and
empties the queue in the same step, so an immediately following drain
returns the empty sequence — no entry is returned by two drains. -/
theorem drainEmptiesAtomically (s : ServerState) :
    (getMessages s).2 = s.messageQueue ∧
    ((getMessages s).1).messageQueue = [] ∧
    (getMessages ((getMessages s).1)).2 = [] := by
  refine ⟨getMessages_snd s, getMessages_fst_queue s, ?_⟩
  rw [getMessages_snd, getMessages_fst_queue]

/-- Claim C6 (counterexample): the effective wait duration is NOT the
requested timeout clamped into `[1, 300]` seconds.  At `-5` the code
yields `-5000` ms (no lower clamp — `Math.min` only caps above) where the
claimed clamp would give `1000` ms; at `0` the `|| 180` fallback yields
`180000` ms where the claimed clamp would give `1000` ms. -/
theorem timeoutNotClampedBelow :
    effectiveTimeoutMs (some (-5)) = -5000 ∧
    clampSpecTimeoutMs (some (-5)) = 1000 ∧
    effectiveTimeoutMs (some 0) = 180000 ∧
    clampSpecTimeoutMs (some 0) = 1000 := by
  decide

/-- Claim C6 (amended): the effective wait duration is the requested
`timeoutSeconds` capped above at 300 seconds, and 180 seconds when the
timeout is unspecified or 0; there is no lower clamp, so any nonzero
request at most 300 — including a negative one — is used as-is. -/
theorem timeoutCappedAboveDefaulted :
    effectiveTimeoutMs none = 180 * 1000 ∧
    effectiveTimeoutMs (some 0) = 180 * 1000 ∧
    (∀ v : Int, v ≠ 0 → v ≤ 300 →
      effectiveTimeoutMs (some v) = v * 1000) ∧
    (∀ v : Int, 300 ≤ v →
      effectiveTimeoutMs (some v) = 300 * 1000) := by
  refine ⟨by decide, by decide, ?_, ?_⟩
  · intro v h0 h300
    simp [effectiveTimeoutMs, h0, min_eq_left h300]
  · intro v h300
    have h0 : v ≠ 0 := by omega
    simp [effectiveTimeoutMs, h0, min_eq_right h300]

/-- Claim C6 witness: the amended theorem evaluated at 42 (in range) and
400 (above the cap). -/
theorem timeoutCappedAboveDefaultedWitness :
    effectiveTimeoutMs (some 42) = 42 * 1000 ∧
    effectiveTimeoutMs (some 400) = 300 * 1000 :=
  ⟨timeoutCappedAboveDefaulted.2.2.1 42 (by decide) (by decide),
   timeoutCappedAboveDefaulted.2.2.2 400 (by decide)⟩

/-- Claim C7: if the timer fires before any `route` call, the wait is
rejected with the timeout error ("Timeout waiting for user reply"), the
resumed `ask_user` returns it as an error result (a returned outcome, not
a crash), the resolver slot is cleared, and a `route` call arriving after
the timeout appends its text to the queue instead of being delivered to
the expired wait, whose outcome stays rejected. -/
theorem timeoutThenLateRouteQueued (s : ServerState) (w : Nat)
    (msg : String) (now : Int)
    (hp : s.pendingReplyResolve = some w)
    (ho : outcomeOf s.waits w = WaitOutcome.unresolved)
    (ht : w ∈ s.armedTimers)
    (hq : s.messageQueue.length < MAX_QUEUE_SIZE) :
    outcomeOf (timerFire w s).waits w
      = WaitOutcome.rejected "Timeout waiting for user reply" ∧
    (askUserResume w (timerFire w s)).2
      = ToolResult.error
          ("Failed to get user reply: " ++ "Timeout waiting for user reply") ∧
    (timerFire w s).pendingReplyResolve = none ∧
    (handleUserMessage msg now (timerFire w s)).messageQueue
      = s.messageQueue ++ [{ text := msg, timestamp := now }] ∧
    outcomeOf (handleUserMessage msg now (timerFire w s)).waits w
      = WaitOutcome.rejected "Timeout waiting for user reply" := by
  have hfire : timerFire w s
      = { s with armedTimers := s.armedTimers.erase w,
                 pendingReplyResolve := none,
                 waits := (w, WaitOutcome.rejected
                     "Timeout waiting for user reply") :: s.waits } := by
    simp [timerFire, ht, rejectWait, ho]
  rw [hfire]
  refine ⟨by simp [outcomeOf], ?_, rfl, ?_, ?_⟩
  · simp [askUserResume, outcomeOf]
  · simp [handleUserMessage, pushBounded_eq_append _ _ hq]
  · simp [handleUserMessage, outcomeOf]

/-- Claim C7 witness: the theorem at the concrete register-then-timeout
trace, followed by a late `route("late")`. -/
theorem timeoutThenLateRouteQueuedWitness :
    outcomeOf (timerFire 0 (registerWait 0 idleState)).waits 0
      = WaitOutcome.rejected "Timeout waiting for user reply" ∧
    (askUserResume 0 (timerFire 0 (registerWait 0 idleState))).2
      = ToolResult.error
          ("Failed to get user reply: " ++ "Timeout waiting for user reply") ∧
    (timerFire 0 (registerWait 0 idleState)).pendingReplyResolve = none ∧
    (handleUserMessage "late" 99
        (timerFire 0 (registerWait 0 idleState))).messageQueue
      = (registerWait 0 idleState).messageQueue
          ++ [{ text := "late", timestamp := 99 }] ∧
    outcomeOf (handleUserMessage "late" 99
        (timerFire 0 (registerWait 0 idleState))).waits 0
      = WaitOutcome.rejected "Timeout waiting for user reply" :=
  timeoutThenLateRouteQueued (registerWait 0 idleState) 0 "late" 99
    (by decide) (by decide) (by decide) (by decide)

/-- Claim C8: a single `route(t)` arriving while a wait is WAITING leaves
the queue untouched, fulfills the wait with `t`, and the resumed
`ask_user` returns `t` and clears the resolver slot. -/
theorem routeBeforeDeadlineDelivers (s : ServerState) (w : Nat)
    (t : String) (now : Int)
    (hp : s.pendingReplyResolve = some w)
    (ho : outcomeOf s.waits w = WaitOutcome.unresolved) :
    (handleUserMessage t now s).messageQueue = s.messageQueue ∧
    outcomeOf (handleUserMessage t now s).waits w
      = WaitOutcome.fulfilled t ∧
    (askUserResume w (handleUserMessage t now s)).2
      = ToolResult.ok ("User replied: " ++ t) ∧
    ((askUserResume w (handleUserMessage t now s)).1).pendingReplyResolve
      = none ∧
    ((askUserResume w (handleUserMessage t now s)).1).messageQueue
      = s.messageQueue := by
  have hmsg : handleUserMessage t now s
      = { s with waits := (w, WaitOutcome.fulfilled t) :: s.waits } := by
    simp [handleUserMessage, hp, resolveWait, ho]
  rw [hmsg]
  refine ⟨rfl, by simp [outcomeOf], ?_, ?_, ?_⟩
  all_goals cases hrt : s.replyTimeout <;> simp [askUserResume, outcomeOf, hrt]

/-- Claim C8 witness: the theorem at the concrete register-then-route
trace of the spec scenario (`route("yes")` before the deadline). -/
theorem routeBeforeDeadlineDeliversWitness :
    (handleUserMessage "yes" 1 (registerWait 0 idleState)).messageQueue
      = (registerWait 0 idleState).messageQueue ∧
    outcomeOf (handleUserMessage "yes" 1
        (registerWait 0 idleState)).waits 0
      = WaitOutcome.fulfilled "yes" ∧
    (askUserResume 0 (handleUserMessage "yes" 1
        (registerWait 0 idleState))).2
      = ToolResult.ok ("User replied: " ++ "yes") ∧
    ((askUserResume 0 (handleUserMessage "yes" 1
        (registerWait 0 idleState))).1).pendingReplyResolve = none ∧
    ((askUserResume 0 (handleUserMessage "yes" 1
        (registerWait 0 idleState))).1).messageQueue
      = (registerWait 0 idleState).messageQueue :=
  routeBeforeDeadlineDelivers (registerWait 0 idleState) 0 "yes" 1
    (by decide) (by decide)

/-- Claim C9 (counterexample): the adapter performs no sender check — a
self-authored (bot) text event with well-formed content is passed to the
Coordinator's callback just like a human-authored one, contrary to the
claim that self-authored events are discarded at the adapter boundary. -/
theorem botTextEventDelivered :
    adapterDeliver true botTextEvent = some (some "hi") ∧
    botTextEvent.senderType = "app" := by
  decide

/-- Claim C9 (amended): the adapter discards silently exactly the events
that are not text-typed or whose content fails to parse; every remaining
text event is delivered regardless of sender, with the parsed content's
`text` field as the value (`none`, i.e. `undefined`, when absent). -/
theorem adapterFiltersTypeAndParseOnly (cb : Bool) (e : InboundEvent) :
    (e.messageType ≠ some "text" → adapterDeliver cb e = none) ∧
    (e.content = ContentParse.malformed → adapterDeliver cb e = none) ∧
    (∀ t, e.messageType = some "text" → cb = true →
      e.content = ContentParse.parsed t → adapterDeliver cb e = some t) := by
  refine ⟨?_, ?_, ?_⟩
  · intro h
    simp [adapterDeliver, h]
  · intro h
    by_cases hm : e.messageType = some "text" <;>
      by_cases hcb : cb = true <;>
        simp [adapterDeliver, h, hm, hcb]
  · intro t h1 h2 h3
    simp [adapterDeliver, h1, h2, h3]

/-- Claim C9 witness: the amended theorem applied to a non-text event, a
malformed text event, and the well-formed bot text event. -/
theorem adapterFiltersTypeAndParseOnlyWitness :
    adapterDeliver true
      { senderType := "user", messageType := some "image",
        content := ContentParse.parsed (some "x") } = none ∧
    adapterDeliver true
      { senderType := "user", messageType := some "text",
        content := ContentParse.malformed } = none ∧
    adapterDeliver true botTextEvent = some (some "hi") :=
  ⟨(adapterFiltersTypeAndParseOnly true
      { senderType := "user", messageType := some "image",
        content := ContentParse.parsed (some "x") }).1 (by decide),
   (adapterFiltersTypeAndParseOnly true
      { senderType := "user", messageType := some "text",
        content := ContentParse.malformed }).2.1 rfl,
   (adapterFiltersTypeAndParseOnly true botTextEvent).2.2
     (some "hi") rfl rfl rfl⟩

/-- Claim C10: if the outbound `sendRichMessage` throws, `ask_user`
returns an error result with the whole state untouched — no resolver, no
timer, queue unchanged — so an inbound text arriving afterwards is
appended to the queue rather than consumed by the failed call. -/
theorem sendFailureRegistersNothing (s : ServerState) (w : Nat)
    (msg : String) (now : Int)
    (hp : s.pendingReplyResolve = none)
    (hq : s.messageQueue.length < MAX_QUEUE_SIZE) :
    askUserStart false w s = (s, AskStart.sendFailed) ∧
    (handleUserMessage msg now (askUserStart false w s).1).messageQueue
      = s.messageQueue ++ [{ text := msg, timestamp := now }] := by
  refine ⟨rfl, ?_⟩
  simp [askUserStart, handleUserMessage, hp, pushBounded_eq_append _ _ hq]

/-- Claim C10 witness: the theorem from the idle state. -/
theorem sendFailureRegistersNothingWitness :
    askUserStart false 0 idleState = (idleState, AskStart.sendFailed) ∧
    (handleUserMessage "hi" 7 (askUserStart false 0 idleState).1).messageQueue
      = idleState.messageQueue ++ [{ text := "hi", timestamp := 7 }] :=
  sendFailureRegistersNothing idleState 0 "hi" 7 (by decide) (by decide)
